import Mathlib

/-!
Shallow embedding of the Cap'n Web debug stub server in
`src/minimal_server.py`, centred on `CapnWebHandler.handle_batch_request`
(lines 40-127).  The handler's observable behaviour is a function from the
request body (a string) to either a response body (a string) or an uncaught
Python exception.  The `json.loads` standard-library decoder is an external
collaborator: it is abstracted as a parameter `parse : String → Option JValue`
(`none` models `json.JSONDecodeError`), and the theorems that need it are
stated under hypotheses on `parse` that any JSON decoder satisfies on the
inputs involved.
-/

namespace MinimalServer

/-- JSON values as produced by `json.loads` (Python: None, bool, int, str,
list, dict).  Floats are not needed by any input considered here. -/
inductive JValue where
  | null : JValue
  | bool : Bool → JValue
  | int : Int → JValue
  | str : String → JValue
  | arr : List JValue → JValue
  | obj : List (String × JValue) → JValue

/-- Python `'\n' in body` (line 53), for the single-character needle. -/
def containsNL (body : String) : Bool := body.data.contains '\n'

/-- Splitting a character list at every occurrence of `c`, as Python
`str.split` does: `"a\n".split('\n') == ["a", ""]`, `"".split('\n') == [""]`. -/
def splitCharList (c : Char) : List Char → List (List Char)
  | [] => [[]]
  | x :: xs =>
      match splitCharList c xs, decide (x = c) with
      | r, true => [] :: r
      | [], false => [[x]]
      | h :: t, false => (x :: h) :: t

/-- Whitespace as stripped by Python `str.strip()` (ASCII portion; the
inputs considered here contain no exotic unicode whitespace). -/
def isPySpace (c : Char) : Bool :=
  c.isWhitespace || c = '\x0b' || c = '\x0c'

/-- Python `line.strip()` (line 55). -/
def pyStrip (s : String) : String :=
  String.mk (((s.data.dropWhile isPySpace).reverse.dropWhile isPySpace).reverse)

/-- Python truthiness (`if method_path ...` at line 83). -/
def truthy : JValue → Bool
  | JValue.null => false
  | JValue.bool b => b
  | JValue.int n => decide (n ≠ 0)
  | JValue.str s => !s.data.isEmpty
  | JValue.arr xs => !xs.isEmpty
  | JValue.obj kvs => !kvs.isEmpty

/-- Python `len(v)`: defined for str, list and dict; `TypeError` (modelled as
`Except.error ()`) otherwise. -/
def pyLen : JValue → Except Unit Nat
  | JValue.str s => Except.ok s.length
  | JValue.arr xs => Except.ok xs.length
  | JValue.obj _kvs => Except.ok _kvs.length
  | _ => Except.error ()

/-- Python `v[0]` (line 84, `method_path[0]`): first element of a list, the
one-character string for a string, and a `KeyError`/`TypeError` (modelled as
`Except.error ()`) for dicts and non-indexable values. -/
def pyGetItem0 : JValue → Except Unit JValue
  | JValue.arr (x :: _) => Except.ok x
  | JValue.arr [] => Except.error ()
  | JValue.str s =>
      match s.data with
      | c :: _ => Except.ok (JValue.str (String.mk [c]))
      | [] => Except.error ()
  | _ => Except.error ()

/-- Numeric view used by Python `+`: ints are themselves and bools coerce to
0/1 (`True + True == 2` in Python). -/
def pyNum : JValue → Option Int
  | JValue.int n => some n
  | JValue.bool b => some (if b then 1 else 0)
  | _ => none

/-- Python `a + b`: numeric addition when both sides are numbers (or bools),
string and list concatenation, and otherwise `TypeError` (modelled as
`Except.error ()`). -/
def pyAdd (a b : JValue) : Except Unit JValue :=
  match pyNum a, pyNum b with
  | some x, some y => Except.ok (JValue.int (x + y))
  | _, _ =>
      match a, b with
      | JValue.str s, JValue.str t => Except.ok (JValue.str (s ++ t))
      | JValue.arr xs, JValue.arr ys => Except.ok (JValue.arr (xs ++ ys))
      | _, _ => Except.error ()

/-- `args[0] + args[1]` (line 86) for a value already known to satisfy
`len(args) == 2`: element-wise for a two-element list, the string itself for
a two-character string, and `KeyError` (modelled as `Except.error ()`) for a
two-entry dict (whose keys are strings, so `args[0]` fails). -/
def pyAddElems01 : JValue → Except Unit JValue
  | JValue.arr [a, b] => pyAdd a b
  | JValue.str s =>
      match s.data with
      | [c1, c2] => Except.ok (JValue.str (String.mk [c1, c2]))
      | _ => Except.error ()
  | _ => Except.error ()

mutual
/-- Python `repr` restricted to JSON values (string escaping inside `repr` of
strings is not modelled; no input considered here needs it). -/
def pyReprJ : JValue → String
  | JValue.null => "None"
  | JValue.bool b => if b then "True" else "False"
  | JValue.int n => toString n
  | JValue.str s => "\x27" ++ s ++ "\x27"
  | JValue.arr xs => "[" ++ pyReprList xs ++ "]"
  | JValue.obj kvs => "\x7b" ++ pyReprObj kvs ++ "\x7d"

def pyReprList : List JValue → String
  | [] => ""
  | [x] => pyReprJ x
  | x :: xs => pyReprJ x ++ ", " ++ pyReprList xs

def pyReprObj : List (String × JValue) → String
  | [] => ""
  | [(k, v)] => "\x27" ++ k ++ "\x27: " ++ pyReprJ v
  | (k, v) :: kvs => "\x27" ++ k ++ "\x27: " ++ pyReprJ v ++ ", " ++ pyReprObj kvs
end

/-- Python `str(v)` as used by the f-string `f'["resolve",-1,{result}]\n'`
(line 90): strings print raw, everything else prints as its repr. -/
def pyStrJ : JValue → String
  | JValue.str s => s
  | v => pyReprJ v

/-- The wire response built at line 90: `f'["resolve",-1,{result}]\n'`. -/
def resolveLine (result : JValue) : String :=
  "[\"resolve\",-1," ++ pyStrJ result ++ "]\n"

/-- Lines 75-97: the body of `if msg_type == "push" and len(parsed) >= 2`,
applied to `expr = parsed[1]`.  Returns `Except.ok (some response)` when the
handler sends a response and returns (lines 90-97), `Except.ok none` when it
falls through to the next line of the batch, and `Except.error ()` when a
Python exception (TypeError/KeyError) escapes. -/
def evalPush (expr : JValue) : Except Unit (Option String) :=
  match expr with
  | JValue.arr (JValue.str "pipeline" :: tail) =>
      -- import_id = expr[1] if len(expr) > 1 else None   (only logged)
      let method_path := tail.getD 1 (JValue.arr [])
      let args := tail.getD 2 (JValue.arr [])
      -- if method_path and len(method_path) > 0:
      if truthy method_path then
        match pyLen method_path with
        | Except.error e => Except.error e
        | Except.ok n =>
            if n > 0 then
              match pyGetItem0 method_path with
              | Except.error e => Except.error e
              | Except.ok method =>
                  -- if method == "add" and len(args) == 2:
                  match method with
                  | JValue.str "add" =>
                      match pyLen args with
                      | Except.error e => Except.error e
                      | Except.ok la =>
                          if la = 2 then
                            match pyAddElems01 args with
                            | Except.error e => Except.error e
                            | Except.ok result => Except.ok (some (resolveLine result))
                          else Except.ok none
                  | _ => Except.ok none
            else Except.ok none
      else Except.ok none
  | _ => Except.ok none

/-- Lines 65-101: dispatch on one parsed line.  A `["push", expr, ...]` line
goes to `evalPush`; a `["pull", ...]` line is only logged; anything else
(non-list, empty list, unknown tag, `["push"]` of length 1) falls through. -/
def evalParsed (parsed : JValue) : Except Unit (Option String) :=
  match parsed with
  | JValue.arr (JValue.str "push" :: expr :: _) => evalPush expr
  | _ => Except.ok none

/-- Line 55: `lines = [line.strip() for line in body.split('\n') if line.strip()]`. -/
def splitLines (body : String) : List String :=
  (((splitCharList '\n' body.data).map fun l => pyStrip (String.mk l)).filter
    fun l => l ≠ "")

/-- The `for i, line in enumerate(lines)` loop (lines 58-104): each line is
parsed; a `json.JSONDecodeError` is caught and the loop continues (lines
103-104); a response from `evalParsed` returns from the handler; an uncaught
exception aborts it. -/
def processLines (parse : String → Option JValue) : List String → Except Unit (Option String)
  | [] => Except.ok none
  | line :: rest =>
      match parse line with
      | none => processLines parse rest
      | some parsed =>
          match evalParsed parsed with
          | Except.error e => Except.error e
          | Except.ok (some r) => Except.ok (some r)
          | Except.ok none => processLines parse rest

/-- Line 107: the default wire-protocol response. -/
def defaultWireResponse : String := "[\"resolve\",-1,\"ok\"]\n"

/-- Line 115: `json.dumps([{"result": "test"}])`. -/
def legacyOkResponse : String := "[\x7b\"result\": \"test\"\x7d]"

/-- Line 118: the malformed-legacy-input response. -/
def invalidJsonResponse : String := "[\"reject\",-1,[\"error\",\"bad_request\",\"Invalid JSON\"]]\n"

/-- `handle_batch_request` (lines 40-127) as a function from the request body
to the response body (`Except.error ()` when an exception escapes and no
response is written).  `parse` stands for `json.loads`. -/
def handle_batch_request (parse : String → Option JValue) (body : String) :
    Except Unit String :=
  if containsNL body then
    match processLines parse (splitLines body) with
    | Except.error e => Except.error e
    | Except.ok (some response) => Except.ok response
    | Except.ok none => Except.ok defaultWireResponse
  else
    match parse body with
    | some _parsed => Except.ok legacyOkResponse
    | none => Except.ok invalidJsonResponse

deriving instance DecidableEq for Except

/-! ### Response inspection helpers

The wire protocol correlates each response line to an identifier: a line is
`["resolve", <id>, ...]` or `["reject", <id>, ...]`.  These helpers decode
that correlation from a response body, for stating which pulls were
answered. -/

/-- Character-list prefix test (structural, so that concrete response bodies
evaluate inside proofs). -/
def startsChars : List Char → List Char → Bool
  | [], _ => true
  | _ :: _, [] => false
  | p :: ps, c :: cs => p = c && startsChars ps cs

/-- `lineStarts pat l` holds when response line `l` begins with `pat`. -/
def lineStarts (pat l : String) : Bool := startsChars pat.data l.data

/-- The non-empty lines of a response body. -/
def respLines (resp : String) : List String :=
  ((splitCharList '\n' resp.data).map String.mk).filter fun l => l ≠ ""

/-- A response line correlated to identifier `id`: a resolve or a reject
whose second element is `id`. -/
def correlLine (id : Int) (l : String) : Bool :=
  lineStarts ("[\"resolve\"," ++ toString id ++ ",") l ||
    lineStarts ("[\"reject\"," ++ toString id ++ ",") l

/-- How many response lines of `resp` are correlated to identifier `id`. -/
def answersFor (resp : String) (id : Int) : Nat :=
  (respLines resp).countP (correlLine id)

/-- A rejection response line (any identifier). -/
def isRejectLine (l : String) : Bool := lineStarts "[\"reject\"" l

/-! ### Instruction-shape fixtures -/

/-- The decoded form of `["push", ["pipeline", importId, ["add"], args]]`. -/
def pushAddArgs (importId : JValue) (args : List JValue) : JValue :=
  JValue.arr [JValue.str "push",
    JValue.arr [JValue.str "pipeline", importId,
      JValue.arr [JValue.str "add"], JValue.arr args]]

/-- The decoded form of a two-argument `add` pipeline push. -/
def addCallLine (importId a b : JValue) : JValue := pushAddArgs importId [a, b]

/-! ### Concrete batch fixtures (the spec scenarios, §8) -/

def c1line1 : String := "[\"push\", 5]"

def c1line2 : String := "[\"push\", [\"pipeline\", -1, [\"add\"], [3, 4]]]"

def c1line3 : String := "[\"pull\", -2]"

/-- The §8 pipelining scenario batch body. -/
def c1body : String := c1line1 ++ "\n" ++ c1line2 ++ "\n" ++ c1line3

def c1line1Val : JValue := JValue.arr [JValue.str "push", JValue.int 5]

def c1line2Val : JValue := addCallLine (JValue.int (-1)) (JValue.int 3) (JValue.int 4)

def c1line3Val : JValue := JValue.arr [JValue.str "pull", JValue.int (-2)]

/-- Batch with a malformed first line and a well-formed sibling. -/
def c3body : String := "not-json" ++ "\n" ++ c1line2

def c4line : String := "[\"push\", [\"pipeline\", -99, [\"add\"], [1, 2]]]"

def c4lineVal : JValue := addCallLine (JValue.int (-99)) (JValue.int 1) (JValue.int 2)

/-- The §8 unknown-import scenario as a one-line wire batch. -/
def c4body : String := c4line ++ "\n"

def c5line : String := "[\"push\", [\"pipeline\", -1, [\"add\"], [1]]]"

def c5lineVal : JValue := pushAddArgs (JValue.int (-1)) [JValue.int 1]

/-- One-line wire batch calling `add` with one argument. -/
def c5body : String := c5line ++ "\n"

def c10line : String := "[\"push\", [\"pipeline\", -1, [\"add\"], [1, \"a\"]]]"

def c10lineVal : JValue := addCallLine (JValue.int (-1)) (JValue.int 1) (JValue.str "a")

/-- One-line wire batch whose `add` arguments are a number and a string. -/
def c10body : String := c10line ++ "\n"

/-- A concrete stand-in for `json.loads` on the fixture lines above: it
agrees with JSON decoding on every listed line and reports a decode failure
(`none`) elsewhere, which is all the witnesses below evaluate it on. -/
def testParse (s : String) : Option JValue :=
  if s = c1line1 then some c1line1Val
  else if s = c1line2 then some c1line2Val
  else if s = c1line3 then some c1line3Val
  else if s = c4line then some c4lineVal
  else if s = c5line then some c5lineVal
  else if s = c10line then some c10lineVal
  else if s = "5" then some (JValue.int 5)
  else none

/-- A line on which the loop of `processLines` moves on to the next line:
either it fails to parse (the caught `json.JSONDecodeError`) or it parses to
something the dispatch falls through on. -/
def lineContinues (parse : String → Option JValue) (l : String) : Prop :=
  parse l = none ∨ ∃ p, parse l = some p ∧ evalParsed p = Except.ok none

/-! ### Relational presentation of the handler

`LinesOut`/`HandlerOut` restate the control flow of `handle_batch_request`
as a derivation relation between inputs and emitted outcomes; determinism of
the handler (claim about re-running batches) is stated against it, so that
the statement is about the code's control flow rather than about a Lean
function being a function. -/

/-- One derivation of the line loop (lines 58-104) producing outcome `o`. -/
inductive LinesOut (parse : String → Option JValue) :
    List String → Except Unit (Option String) → Prop where
  | done : LinesOut parse [] (Except.ok none)
  | skip {line : String} {rest : List String} {o : Except Unit (Option String)} :
      parse line = none → LinesOut parse rest o → LinesOut parse (line :: rest) o
  | halt {line : String} {rest : List String} {p : JValue} :
      parse line = some p → evalParsed p = Except.error () →
      LinesOut parse (line :: rest) (Except.error ())
  | reply {line : String} {rest : List String} {p : JValue} {r : String} :
      parse line = some p → evalParsed p = Except.ok (some r) →
      LinesOut parse (line :: rest) (Except.ok (some r))
  | next {line : String} {rest : List String} {p : JValue} {o : Except Unit (Option String)} :
      parse line = some p → evalParsed p = Except.ok none →
      LinesOut parse rest o → LinesOut parse (line :: rest) o

/-- One derivation of `handle_batch_request` (lines 40-127) producing
response `o` for request body `body`. -/
inductive HandlerOut (parse : String → Option JValue) :
    String → Except Unit String → Prop where
  | wireReply {body r} : containsNL body = true →
      LinesOut parse (splitLines body) (Except.ok (some r)) →
      HandlerOut parse body (Except.ok r)
  | wireDefault {body} : containsNL body = true →
      LinesOut parse (splitLines body) (Except.ok none) →
      HandlerOut parse body (Except.ok defaultWireResponse)
  | wireHalt {body} : containsNL body = true →
      LinesOut parse (splitLines body) (Except.error ()) →
      HandlerOut parse body (Except.error ())
  | legacyOk {body v} : containsNL body = false → parse body = some v →
      HandlerOut parse body (Except.ok legacyOkResponse)
  | legacyBad {body} : containsNL body = false → parse body = none →
      HandlerOut parse body (Except.ok invalidJsonResponse)

/-! ### Shared lemmas -/

/-- The two-argument `add` pipeline push reaches line 86: its outcome is the
outcome of `args[0] + args[1]`, and the import id plays no role. -/
theorem evalParsed_addCall_ok (iid a b r : JValue) (h : pyAdd a b = Except.ok r) :
    evalParsed (addCallLine iid a b) = Except.ok (some (resolveLine r)) := by
  have key : evalParsed (addCallLine iid a b) =
      (match pyAdd a b with
        | Except.error e => Except.error e
        | Except.ok result => Except.ok (some (resolveLine result))) := rfl
  rw [key, h]

/-- When `args[0] + args[1]` raises, the exception escapes the handler. -/
theorem evalParsed_addCall_err (iid a b : JValue) (h : pyAdd a b = Except.error ()) :
    evalParsed (addCallLine iid a b) = Except.error () := by
  have key : evalParsed (addCallLine iid a b) =
      (match pyAdd a b with
        | Except.error e => Except.error e
        | Except.ok result => Except.ok (some (resolveLine result))) := rfl
  rw [key, h]

/-- An `add` pipeline push whose argument list does not have length 2 fails
the `len(args) == 2` test of line 85 and falls through. -/
theorem evalParsed_addArity (iid : JValue) (args : List JValue) (h : args.length ≠ 2) :
    evalParsed (pushAddArgs iid args) = Except.ok none := by
  have key : evalParsed (pushAddArgs iid args) =
      (if args.length = 2 then
        (match pyAddElems01 (JValue.arr args) with
          | Except.error e => Except.error e
          | Except.ok result => Except.ok (some (resolveLine result)))
        else Except.ok none) := rfl
  rw [key, if_neg h]

/-- A prefix of lines the loop moves past does not affect the outcome. -/
theorem processLines_skipAll (parse : String → Option JValue) (pre ls : List String)
    (h : ∀ l ∈ pre, lineContinues parse l) :
    processLines parse (pre ++ ls) = processLines parse ls := by
  induction pre with
  | nil => rfl
  | cons l t ih =>
      have hl := h l (List.mem_cons_self l t)
      have ht : ∀ x ∈ t, lineContinues parse x := fun x hx => h x (List.mem_cons_of_mem _ hx)
      rcases hl with hn | ⟨p, hp, he⟩
      · simpa [processLines, hn] using ih ht
      · simpa [processLines, hp, he] using ih ht

/-- Every response the push dispatch emits is a resolve correlated to the
hard-coded identifier `-1` (line 90). -/
theorem evalPush_ok_some {expr : JValue} {r : String}
    (h : evalPush expr = Except.ok (some r)) : ∃ v, r = resolveLine v := by
  simp only [evalPush] at h
  repeat' split at h
  all_goals simp_all
  all_goals exact ⟨_, h.symm⟩

/-- Every response the line dispatch emits is a resolve correlated to `-1`. -/
theorem evalParsed_ok_some {p : JValue} {r : String}
    (h : evalParsed p = Except.ok (some r)) : ∃ v, r = resolveLine v := by
  simp only [evalParsed] at h
  split at h
  · exact evalPush_ok_some h
  · simp_all

/-- Every early-returned response of the line loop is a resolve correlated
to `-1`. -/
theorem processLines_ok_some {parse : String → Option JValue} :
    ∀ {ls : List String} {r : String},
      processLines parse ls = Except.ok (some r) → ∃ v, r = resolveLine v := by
  intro ls
  induction ls with
  | nil => intro r h; simp [processLines] at h
  | cons line rest ih =>
      intro r h
      unfold processLines at h
      split at h
      next hp => exact ih h
      next p hp =>
        split at h
        next e he => exact absurd h (by simp)
        next rr he =>
          have hrr : rr = r := by simpa using h
          subst hrr
          exact evalParsed_ok_some he
        next he => exact ih h

/-- The line loop relation is deterministic. -/
theorem linesOut_det {parse : String → Option JValue} {ls : List String}
    {o₁ o₂ : Except Unit (Option String)}
    (h₁ : LinesOut parse ls o₁) (h₂ : LinesOut parse ls o₂) : o₁ = o₂ := by
  induction h₁ generalizing o₂ with
  | done => cases h₂; rfl
  | skip hn _ ih =>
      cases h₂ with
      | skip hn' h' => exact ih h'
      | halt hp _ => simp [hn] at hp
      | reply hp _ => simp [hn] at hp
      | next hp _ _ => simp [hn] at hp
  | halt hp he =>
      cases h₂ with
      | skip hn _ => simp [hn] at hp
      | halt hp' he' => rfl
      | reply hp' he' => rw [hp'] at hp; cases hp; rw [he'] at he; cases he
      | next hp' he' _ => rw [hp'] at hp; cases hp; rw [he'] at he; cases he
  | reply hp he =>
      cases h₂ with
      | skip hn _ => simp [hn] at hp
      | halt hp' he' => rw [hp'] at hp; cases hp; rw [he'] at he; cases he
      | reply hp' he' =>
          rw [hp'] at hp; cases hp; rw [he'] at he; exact he.symm
      | next hp' he' _ => rw [hp'] at hp; cases hp; rw [he'] at he; cases he
  | next hp he _ ih =>
      cases h₂ with
      | skip hn _ => simp [hn] at hp
      | halt hp' he' => rw [hp'] at hp; cases hp; rw [he'] at he; cases he
      | reply hp' he' => rw [hp'] at hp; cases hp; rw [he'] at he; cases he
      | next hp' he' h' => exact ih h'

/-- The handler relation is deterministic. -/
theorem handlerOut_det {parse : String → Option JValue} {body : String}
    {o₁ o₂ : Except Unit String}
    (h₁ : HandlerOut parse body o₁) (h₂ : HandlerOut parse body o₂) : o₁ = o₂ := by
  cases h₁ with
  | wireReply hc hl =>
      cases h₂ with
      | wireReply hc' hl' => rw [Except.ok.injEq]; exact Option.some.inj (Except.ok.inj (linesOut_det hl hl'))
      | wireDefault hc' hl' => cases linesOut_det hl hl'
      | wireHalt hc' hl' => cases linesOut_det hl hl'
      | legacyOk hc' _ => rw [hc] at hc'; cases hc'
      | legacyBad hc' _ => rw [hc] at hc'; cases hc'
  | wireDefault hc hl =>
      cases h₂ with
      | wireReply hc' hl' => cases linesOut_det hl hl'
      | wireDefault hc' hl' => rfl
      | wireHalt hc' hl' => cases linesOut_det hl hl'
      | legacyOk hc' _ => rw [hc] at hc'; cases hc'
      | legacyBad hc' _ => rw [hc] at hc'; cases hc'
  | wireHalt hc hl =>
      cases h₂ with
      | wireReply hc' hl' => cases linesOut_det hl hl'
      | wireDefault hc' hl' => cases linesOut_det hl hl'
      | wireHalt hc' hl' => rfl
      | legacyOk hc' _ => rw [hc] at hc'; cases hc'
      | legacyBad hc' _ => rw [hc] at hc'; cases hc'
  | legacyOk hc hp =>
      cases h₂ with
      | wireReply hc' _ => rw [hc] at hc'; cases hc'
      | wireDefault hc' _ => rw [hc] at hc'; cases hc'
      | wireHalt hc' _ => rw [hc] at hc'; cases hc'
      | legacyOk hc' hp' => rfl
      | legacyBad hc' hp' => rw [hp'] at hp; cases hp
  | legacyBad hc hp =>
      cases h₂ with
      | wireReply hc' _ => rw [hc] at hc'; cases hc'
      | wireDefault hc' _ => rw [hc] at hc'; cases hc'
      | wireHalt hc' _ => rw [hc] at hc'; cases hc'
      | legacyOk hc' hp' => rw [hp'] at hp; cases hp
      | legacyBad hc' hp' => rfl

/-- The line loop relation is realized by `processLines`. -/
theorem linesOut_run (parse : String → Option JValue) :
    ∀ ls : List String, LinesOut parse ls (processLines parse ls) := by
  intro ls
  induction ls with
  | nil => exact LinesOut.done
  | cons line rest ih =>
      cases hp : parse line with
      | none =>
          have heq : processLines parse (line :: rest) = processLines parse rest := by
            simp [processLines, hp]
          exact heq ▸ LinesOut.skip hp ih
      | some p =>
          cases he : evalParsed p with
          | error e =>
              cases e
              have heq : processLines parse (line :: rest) = Except.error () := by
                simp [processLines, hp, he]
              exact heq ▸ LinesOut.halt hp he
          | ok oo =>
              cases oo with
              | none =>
                  have heq : processLines parse (line :: rest) = processLines parse rest := by
                    simp [processLines, hp, he]
                  exact heq ▸ LinesOut.next hp he ih
              | some r =>
                  have heq : processLines parse (line :: rest) = Except.ok (some r) := by
                    simp [processLines, hp, he]
                  exact heq ▸ LinesOut.reply hp he

/-- The handler relation is realized by `handle_batch_request`. -/
theorem handlerOut_run (parse : String → Option JValue) (body : String) :
    HandlerOut parse body (handle_batch_request parse body) := by
  unfold handle_batch_request
  cases hc : containsNL body with
  | true =>
      simp only [if_pos rfl]
      cases hl : processLines parse (splitLines body) with
      | error e => cases e; exact HandlerOut.wireHalt hc (hl ▸ linesOut_run parse _)
      | ok oo =>
          cases oo with
          | none => exact HandlerOut.wireDefault hc (hl ▸ linesOut_run parse _)
          | some r => exact HandlerOut.wireReply hc (hl ▸ linesOut_run parse _)
  | false =>
      simp only [Bool.false_eq_true, if_neg]
      cases hp : parse body with
      | none => simp only [hp]; exact HandlerOut.legacyBad hc hp
      | some v => simp only [hp]; exact HandlerOut.legacyOk hc hp

/-- Running the §8 pipelining scenario batch with any decoder that parses
its three lines as JSON does: the handler replies with the single line
`["resolve",-1,7]` (the hard-coded identifier of line 90). -/
theorem c1body_run (parse : String → Option JValue)
    (h1 : parse c1line1 = some c1line1Val)
    (h2 : parse c1line2 = some c1line2Val)
    (h3 : parse c1line3 = some c1line3Val) :
    handle_batch_request parse c1body = Except.ok "[\"resolve\",-1,7]\n" := by
  have hs : splitLines c1body = [c1line1, c1line2, c1line3] := rfl
  have hc : containsNL c1body = true := rfl
  have e1 : evalParsed c1line1Val = Except.ok none := rfl
  have e2 : evalParsed c1line2Val = Except.ok (some "[\"resolve\",-1,7]\n") := rfl
  have key : processLines parse [c1line1, c1line2, c1line3] =
      Except.ok (some "[\"resolve\",-1,7]\n") := by
    simp only [processLines, h1, e1, h2, e2]
  unfold handle_batch_request
  simp only [hc, eq_self_iff_true, if_true, hs, key]

/-! ### Claims -/

/-- Claim C1, counterexample: on the batch `["push",5]` / `["push",
["pipeline",-1,["add"],[3,4]]]` / `["pull",-2]` with `add` bound as
addition, the response body is not the line `["resolve",-2,7]` (with or
without the newline terminator): the handler never correlates to `-2`. -/
theorem c1_counterexample :
    handle_batch_request testParse c1body ≠ Except.ok "[\"resolve\",-2,7]\n" ∧
    handle_batch_request testParse c1body ≠ Except.ok "[\"resolve\",-2,7]" := by
  decide

/-- Claim C1 (amended): for that batch, the response body is the single
line `["resolve",-1,7]` — the value 7 is resolved, but correlated to the
hard-coded identifier `-1` of line 90, not to the identifier `-2` that the
second push would allocate in the spec's generalized design. -/
theorem c1_scenario_resolves_minus_one (parse : String → Option JValue)
    (h1 : parse c1line1 = some c1line1Val)
    (h2 : parse c1line2 = some c1line2Val)
    (h3 : parse c1line3 = some c1line3Val) :
    handle_batch_request parse c1body = Except.ok "[\"resolve\",-1,7]\n" :=
  c1body_run parse h1 h2 h3

/-- Witness for C1 at the concrete decoder. -/
theorem c1_witness :
    handle_batch_request testParse c1body = Except.ok "[\"resolve\",-1,7]\n" :=
  c1_scenario_resolves_minus_one testParse rfl rfl rfl

/-- Claim C2, counterexample: in the scenario batch, `["pull", -2]` pulls an
identifier allocated (in the spec's numbering) by the second push of the
same batch, yet the response body contains zero lines correlated to `-2` —
not exactly one. -/
theorem c2_counterexample :
    handle_batch_request testParse c1body = Except.ok "[\"resolve\",-1,7]\n" ∧
    answersFor "[\"resolve\",-1,7]\n" (-2) = 0 := by
  decide

/-- Claim C2 (amended): a decoded `["pull", id]` is only logged (lines
99-101) and receives no correlated terminal response; for the scenario
batch the entire response is one line correlated to the fixed identifier
`-1` and none correlated to the pulled `-2`. -/
theorem c2_pull_never_answered (parse : String → Option JValue) (resp : String)
    (h1 : parse c1line1 = some c1line1Val)
    (h2 : parse c1line2 = some c1line2Val)
    (h3 : parse c1line3 = some c1line3Val)
    (hr : handle_batch_request parse c1body = Except.ok resp) :
    answersFor resp (-2) = 0 ∧ answersFor resp (-1) = 1 := by
  have hrun := c1body_run parse h1 h2 h3
  rw [hrun] at hr
  have : "[\"resolve\",-1,7]\n" = resp := Except.ok.inj hr
  subst this
  decide

/-- Witness for C2 at the concrete decoder. -/
theorem c2_witness :
    answersFor "[\"resolve\",-1,7]\n" (-2) = 0 ∧
    answersFor "[\"resolve\",-1,7]\n" (-1) = 1 :=
  c2_pull_never_answered testParse "[\"resolve\",-1,7]\n" rfl rfl rfl
    (c1body_run testParse rfl rfl rfl)

/-- Claim C3, counterexample: the batch whose first line is the malformed
`not-json` is answered by `["resolve",-1,7]` alone — the response contains
zero rejection lines, so no rejection scoped to the malformed line's
sentinel identifier is emitted. -/
theorem c3_counterexample :
    handle_batch_request testParse c3body = Except.ok "[\"resolve\",-1,7]\n" ∧
    (respLines "[\"resolve\",-1,7]\n").countP isRejectLine = 0 := by
  decide

/-- Claim C3 (amended): a line that fails to decode does not abort the
batch — the `json.JSONDecodeError` handler of lines 103-104 only logs, so
the loop continues with the outcome of the remaining lines unchanged and
well-formed siblings still resolve — but no rejection is emitted for the
malformed line. -/
theorem c3_malformed_skipped (parse : String → Option JValue) (rest : List String)
    (hbad : parse "not-json" = none)
    (h2 : parse c1line2 = some c1line2Val) :
    processLines parse ("not-json" :: rest) = processLines parse rest ∧
    handle_batch_request parse c3body = Except.ok "[\"resolve\",-1,7]\n" := by
  constructor
  · simp only [processLines, hbad]
  · have hs : splitLines c3body = ["not-json", c1line2] := rfl
    have hc : containsNL c3body = true := rfl
    have e2 : evalParsed c1line2Val = Except.ok (some "[\"resolve\",-1,7]\n") := rfl
    have key : processLines parse ["not-json", c1line2] =
        Except.ok (some "[\"resolve\",-1,7]\n") := by
      simp only [processLines, hbad, h2, e2]
    unfold handle_batch_request
    simp only [hc, eq_self_iff_true, if_true, hs, key]

/-- Witness for C3 at the concrete decoder. -/
theorem c3_witness :
    processLines testParse ("not-json" :: [c1line2]) = processLines testParse [c1line2] ∧
    handle_batch_request testParse c3body = Except.ok "[\"resolve\",-1,7]\n" :=
  c3_malformed_skipped testParse [c1line2] rfl rfl

/-- Claim C4, counterexample: pushing `["pipeline", -99, ["add"], [1, 2]]`
with `-99` never allocated yields the successful resolve `["resolve",-1,3]`:
no rejection line at all and nothing correlated to `-99`. -/
theorem c4_counterexample :
    handle_batch_request testParse c4body = Except.ok "[\"resolve\",-1,3]\n" ∧
    (respLines "[\"resolve\",-1,3]\n").countP isRejectLine = 0 ∧
    answersFor "[\"resolve\",-1,3]\n" (-99) = 0 := by
  decide

/-- Claim C4 (amended): the import identifier of a pipeline expression is
extracted only for logging (line 76) and never looked up, so the
never-allocated `-99` produces no `unknown_id` rejection: the call is
invoked anyway and resolves successfully as `["resolve",-1,3]`, whatever
the import identifier is. -/
theorem c4_unknown_id_ignored (parse : String → Option JValue)
    (h : parse c4line = some c4lineVal) :
    handle_batch_request parse c4body = Except.ok "[\"resolve\",-1,3]\n" ∧
    ∀ importId : JValue,
      evalParsed (addCallLine importId (JValue.int 1) (JValue.int 2)) =
        Except.ok (some "[\"resolve\",-1,3]\n") := by
  constructor
  · have hs : splitLines c4body = [c4line] := rfl
    have hc : containsNL c4body = true := rfl
    have e : evalParsed c4lineVal = Except.ok (some "[\"resolve\",-1,3]\n") := rfl
    have key : processLines parse [c4line] = Except.ok (some "[\"resolve\",-1,3]\n") := by
      simp only [processLines, h, e]
    unfold handle_batch_request
    simp only [hc, eq_self_iff_true, if_true, hs, key]
  · intro importId
    have hline : resolveLine (JValue.int 3) = "[\"resolve\",-1,3]\n" := rfl
    rw [← hline]
    exact evalParsed_addCall_ok importId _ _ _ rfl

/-- Witness for C4 at the concrete decoder and import id `-99`. -/
theorem c4_witness :
    handle_batch_request testParse c4body = Except.ok "[\"resolve\",-1,3]\n" ∧
    evalParsed (addCallLine (JValue.int (-99)) (JValue.int 1) (JValue.int 2)) =
      Except.ok (some "[\"resolve\",-1,3]\n") :=
  ⟨(c4_unknown_id_ignored testParse rfl).1,
   (c4_unknown_id_ignored testParse rfl).2 (JValue.int (-99))⟩

/-- Claim C5, counterexample: calling `add` with one argument yields the
default `["resolve",-1,"ok"]` response and zero rejection lines — no
`ArityMismatch` rejection is produced. -/
theorem c5_counterexample :
    handle_batch_request testParse c5body = Except.ok "[\"resolve\",-1,\"ok\"]\n" ∧
    (respLines "[\"resolve\",-1,\"ok\"]\n").countP isRejectLine = 0 := by
  decide

/-- Claim C5 (amended): an `add` pipeline whose argument count differs from
2 simply fails the `len(args) == 2` test of line 85 and is ignored — the
line falls through with no response of its own, and a batch consisting of
such a call is answered by the default `["resolve",-1,"ok"]`, not by a
rejection. -/
theorem c5_arity_mismatch_ignored (parse : String → Option JValue)
    (body line : String) (importId : JValue) (args : List JValue)
    (hlen : args.length ≠ 2)
    (hc : containsNL body = true)
    (hs : splitLines body = [line])
    (hp : parse line = some (pushAddArgs importId args)) :
    evalParsed (pushAddArgs importId args) = Except.ok none ∧
    handle_batch_request parse body = Except.ok defaultWireResponse := by
  have e := evalParsed_addArity importId args hlen
  refine ⟨e, ?_⟩
  have key : processLines parse [line] = Except.ok none := by
    simp only [processLines, hp, e]
  unfold handle_batch_request
  simp only [hc, eq_self_iff_true, if_true, hs, key]

/-- Witness for C5: the one-argument call `["push", ["pipeline", -1,
["add"], [1]]]`. -/
theorem c5_witness :
    evalParsed (pushAddArgs (JValue.int (-1)) [JValue.int 1]) = Except.ok none ∧
    handle_batch_request testParse c5body = Except.ok defaultWireResponse :=
  c5_arity_mismatch_ignored testParse c5body c5line (JValue.int (-1)) [JValue.int 1]
    (by decide) rfl rfl rfl

/-- Claim C6: a request body with no newline that fails to parse as JSON is
answered by exactly the line
`["reject",-1,["error","bad_request","Invalid JSON"]]` (newline-terminated),
built at line 118. -/
theorem c6_legacy_invalid_json (parse : String → Option JValue) (body : String)
    (hn : containsNL body = false) (hp : parse body = none) :
    handle_batch_request parse body = Except.ok invalidJsonResponse ∧
    invalidJsonResponse = "[\"reject\",-1,[\"error\",\"bad_request\",\"Invalid JSON\"]]\n" := by
  refine ⟨?_, rfl⟩
  unfold handle_batch_request
  simp only [hn, Bool.false_eq_true, if_false, hp]

/-- Witness for C6: the newline-free, non-JSON body `not-json`. -/
theorem c6_witness :
    handle_batch_request testParse "not-json" = Except.ok invalidJsonResponse ∧
    invalidJsonResponse = "[\"reject\",-1,[\"error\",\"bad_request\",\"Invalid JSON\"]]\n" :=
  c6_legacy_invalid_json testParse "not-json" rfl rfl

/-- Claim C7: a request body with no newline that parses as a single JSON
value takes the legacy branch of lines 110-115 and is answered with the
single JSON array `[{"result": "test"}]`, which is not line-delimited (it
contains no newline). -/
theorem c7_legacy_single_json (parse : String → Option JValue) (body : String)
    (v : JValue) (hn : containsNL body = false) (hp : parse body = some v) :
    handle_batch_request parse body = Except.ok legacyOkResponse ∧
    containsNL legacyOkResponse = false := by
  refine ⟨?_, rfl⟩
  unfold handle_batch_request
  simp only [hn, Bool.false_eq_true, if_false, hp]

/-- Witness for C7: the newline-free JSON body `5`. -/
theorem c7_witness :
    handle_batch_request testParse "5" = Except.ok legacyOkResponse ∧
    containsNL legacyOkResponse = false :=
  c7_legacy_single_json testParse "5" (JValue.int 5) rfl rfl

/-- Claim C8: batch handling is deterministic — any two outcomes the
handler's control flow (`HandlerOut`, with the fixed pure `add` binding of
line 86 and an unchanged decoder) can derive for the same request body are
equal. -/
theorem c8_deterministic (parse : String → Option JValue) (body : String)
    (o₁ o₂ : Except Unit String)
    (h₁ : HandlerOut parse body o₁) (h₂ : HandlerOut parse body o₂) : o₁ = o₂ :=
  handlerOut_det h₁ h₂

/-- Witness for C8: the computed run of the scenario batch coincides with an
explicitly derived one. -/
theorem c8_witness :
    handle_batch_request testParse c1body = Except.ok "[\"resolve\",-1,7]\n" :=
  c8_deterministic testParse c1body _ _ (handlerOut_run testParse c1body)
    (HandlerOut.wireReply rfl (LinesOut.next rfl rfl (LinesOut.reply rfl rfl)))

/-- Claim C9, counterexample: a batch whose only line is a two-argument
`add` push (arguments `1` and `"a"`) matches the claim's trigger, yet the
handler raises instead of emitting `["resolve",-1,<sum>]` — no response at
all is produced, so the claimed response shape fails. -/
theorem c9_counterexample :
    testParse c10line =
      some (addCallLine (JValue.int (-1)) (JValue.int 1) (JValue.str "a")) ∧
    handle_batch_request testParse c10body = Except.error () := by
  exact ⟨rfl, rfl⟩

/-- Claim C9 (amended): provided no line raises an uncaught exception, the
handler emits at most one response line: it returns immediately after the
first line that parses as a two-argument `add` pipeline push whose addition
succeeds, emitting `["resolve",-1,<sum>]` without examining any later line;
a wire batch the loop falls through is answered by the fixed
`["resolve",-1,"ok"]`; and every successful wire response is one of those
two shapes. -/
theorem c9_single_response :
    (∀ (parse : String → Option JValue) (line : String) (rest : List String)
        (importId a b r : JValue),
        parse line = some (addCallLine importId a b) →
        pyAdd a b = Except.ok r →
        processLines parse (line :: rest) = Except.ok (some (resolveLine r))) ∧
    (∀ (parse : String → Option JValue) (body : String),
        containsNL body = true →
        processLines parse (splitLines body) = Except.ok none →
        handle_batch_request parse body = Except.ok defaultWireResponse) ∧
    (∀ (parse : String → Option JValue) (body resp : String),
        containsNL body = true →
        handle_batch_request parse body = Except.ok resp →
        resp = defaultWireResponse ∨ ∃ v, resp = resolveLine v) := by
  refine ⟨?_, ?_, ?_⟩
  · intro parse line rest importId a b r hp hadd
    have e := evalParsed_addCall_ok importId a b r hadd
    simp only [processLines, hp, e]
  · intro parse body hc hl
    unfold handle_batch_request
    simp only [hc, eq_self_iff_true, if_true, hl]
  · intro parse body resp hc hr
    unfold handle_batch_request at hr
    simp only [hc, eq_self_iff_true, if_true] at hr
    split at hr
    next e hl => exact absurd hr (by simp)
    next r hl =>
      have hrr : r = resp := by simpa using hr
      subst hrr
      exact Or.inr (processLines_ok_some hl)
    next hl => exact Or.inl (by simpa using hr.symm)

/-- Witness for C9: all three conjuncts at concrete inputs. -/
theorem c9_witness :
    processLines testParse [c1line2] = Except.ok (some (resolveLine (JValue.int 7))) ∧
    handle_batch_request testParse "x\ny" = Except.ok defaultWireResponse ∧
    (defaultWireResponse = defaultWireResponse ∨
      ∃ v, defaultWireResponse = resolveLine v) :=
  ⟨c9_single_response.1 testParse c1line2 [] (JValue.int (-1)) (JValue.int 3)
      (JValue.int 4) (JValue.int 7) rfl rfl,
   c9_single_response.2.1 testParse "x\ny" rfl rfl,
   c9_single_response.2.2 testParse "x\ny" defaultWireResponse rfl
     (c9_single_response.2.1 testParse "x\ny" rfl rfl)⟩

/-- Claim C10: when the first line the loop does not move past is a
two-argument `add` pipeline push whose arguments do not support `+` (so
`args[0] + args[1]` at line 86 raises `TypeError`), the exception escapes
the handler and no response body is written for the batch. -/
theorem c10_type_error_no_response (parse : String → Option JValue)
    (body line : String) (pre rest : List String) (importId a b : JValue)
    (hc : containsNL body = true)
    (hs : splitLines body = pre ++ line :: rest)
    (hpre : ∀ l ∈ pre, lineContinues parse l)
    (hp : parse line = some (addCallLine importId a b))
    (hadd : pyAdd a b = Except.error ()) :
    handle_batch_request parse body = Except.error () := by
  have e := evalParsed_addCall_err importId a b hadd
  have hskip := processLines_skipAll parse pre (line :: rest) hpre
  have hl : processLines parse (splitLines body) = Except.error () := by
    rw [hs, hskip]
    simp only [processLines, hp, e]
  unfold handle_batch_request
  simp only [hc, eq_self_iff_true, if_true, hl]

/-- Witness for C10: the one-line batch adding `1` and `"a"`. -/
theorem c10_witness :
    handle_batch_request testParse c10body = Except.error () :=
  c10_type_error_no_response testParse c10body c10line [] [] (JValue.int (-1))
    (JValue.int 1) (JValue.str "a") rfl rfl (by simp) rfl rfl

end MinimalServer
